import Mathlib

/-!
Verification of the `illuminate_controller` repository
(`src/illuminate/illuminate.py`, class `IlluminateController`).

The development shallowly embeds the transport/session layer
(`flush`, `command`, `response`), the sequence compiler
(`preloadSequence`), the sequence runner (`runSequence`,
`_runSequence`, `_runSequenceFast`), the capability fetch
(`getLedArrayParametersDict` / `getLedArrayParameters`) and
`setSequenceBitDepth` as pure Lean functions.  Serial I/O is made
explicit: a `Channel` carries its open flag, the bytes currently
available to read, and the log of written lines; the bytes a device
sends in reaction to a command are passed as an explicit `reply`
argument.  Python exceptions become `Except` errors.
-/

namespace Illuminate

/-- `self.response_terminator`, the marker `-==-` plus a newline (source line 43). -/
def response_terminator : String := "-==-\n"

/-- `self.command_terminator`, a single newline (source line 44). -/
def command_terminator : String := "\n"

/-- State of the serial connection as the Python code can observe it:
whether the port is open, the bytes currently buffered for reading, and
the log of lines written so far. -/
structure Channel where
  isOpen : Bool
  inBuffer : String
  written : List String
deriving DecidableEq, Repr

/-- Errors raised by the session layer: the serial-port-not-open
`ValueError` and the `ValueError` carrying `response.split(ERROR)` from
the source. -/
inductive SessionError where
  | notOpen
  | deviceError (parts : List String)
deriving DecidableEq, Repr

/-- The check `ERROR in response` (source line 112): substring test for
the five-character marker, scanning left to right. -/
def containsERROR : List Char → Bool
  | 'E' :: 'R' :: 'R' :: 'O' :: 'R' :: _ => true
  | _ :: rest => containsERROR rest
  | [] => false

/-- `response.split(ERROR)` (source line 113): Python `str.split` on
the five-character marker, keeping empty segments, consuming
non-overlapping occurrences left to right. -/
def splitOnERROR : List Char → List (List Char)
  | 'E' :: 'R' :: 'R' :: 'O' :: 'R' :: rest => [] :: splitOnERROR rest
  | c :: rest =>
    match splitOnERROR rest with
    | [] => [[c]]
    | x :: xs => (c :: x) :: xs
  | [] => [[]]

/-- `serial.read_until(terminator)` (source line 107) for the
five-character terminator `-==-` plus newline: returns the bytes up to
and including the first occurrence of the terminator, together with the
bytes left in the buffer.  The source never configures a serial read
timeout — `reload` (line 137) creates the port with the pyserial
default `timeout=None`, and neither `serial_read_timeout_s` (line 45)
nor the `timeout_s` parameter of `response` (line 102) is ever applied
— so on a stream without the terminator `read_until` blocks forever and
never returns; the no-terminator fallback below is a totality case that
no trace of the source reaches (`readUntilReturns` states when the read
returns at all). -/
def readUntilTerm : List Char → List Char × List Char
  | '-' :: '=' :: '=' :: '-' :: '\n' :: rest => (['-', '=', '=', '-', '\n'], rest)
  | c :: rest =>
    match readUntilTerm rest with
    | (a, b) => (c :: a, b)
  | [] => ([], [])

/-- Whether the five-character response terminator occurs in a byte
stream. -/
def containsTerminator : List Char → Bool
  | '-' :: '=' :: '=' :: '-' :: '\n' :: _ => true
  | _ :: rest => containsTerminator rest
  | [] => false

/-- Whether the read on source line 107 returns at all: with the
pyserial default `timeout=None` left in place by `reload` (no timeout
is ever installed on the interface), `read_until` returns exactly when
the terminator appears in the incoming byte stream, and blocks
indefinitely otherwise. -/
def readUntilReturns (stream : List Char) : Bool := containsTerminator stream

/-- The text `read_until` hands to the classifier in
`IlluminateController.response`. -/
def rawRead (ch : Channel) : String := String.mk (readUntilTerm ch.inBuffer.toList).1

/-- The bytes still buffered after the read in
`IlluminateController.response`. -/
def restAfterRead (ch : Channel) : String := String.mk (readUntilTerm ch.inBuffer.toList).2

/-- `IlluminateController.response` (source lines 102-119).  Reads one
response with `read_until` and classifies it.  Note the faithful
modelling of line 110: the call of `response.replace` with the
terminator computes a stripped copy and discards it (the result is
never assigned), so the raw text — terminator included — is what gets
classified and returned. -/
def response (ch : Channel) : Except SessionError (Option String × Channel) :=
  if ch.isOpen then
    if containsERROR (rawRead ch).toList then
      .error (.deviceError ((splitOnERROR (rawRead ch).toList).map String.mk))
    else if (rawRead ch).length = 0 then
      .ok (none, { ch with inBuffer := restAfterRead ch })
    else
      .ok (some (rawRead ch), { ch with inBuffer := restAfterRead ch })
  else
    .error .notOpen

/-- `IlluminateController.flush` (source lines 121-128): `read_all`
discards every buffered byte; on a closed port it raises. -/
def flush (ch : Channel) : Except SessionError Channel :=
  if ch.isOpen then .ok { ch with inBuffer := "" }
  else .error .notOpen

/-- The write step of `IlluminateController.command` (source lines
85-88): append the command terminator and transmit, or raise if the
port is closed. -/
def writeCommand (ch : Channel) (cmd : String) : Except SessionError Channel :=
  if ch.isOpen then .ok { ch with written := ch.written ++ [cmd ++ command_terminator] }
  else .error .notOpen

/-- `IlluminateController.command` (source lines 74-99): flush, write,
and — iff `wait_for_response` — read and classify one response.  With
`wait_for_response=False` the function body ends without a `return`
statement, so the caller receives `None`.  `reply` stands for the bytes
the device sends in reaction to the written command; they arrive after
the flush, so with no read they simply stay buffered. -/
def command (ch : Channel) (cmd : String) (reply : String) (waitForResponse : Bool) :
    Except SessionError (Option String × Channel) :=
  match flush ch with
  | .error e => .error e
  | .ok ch1 =>
    match writeCommand ch1 cmd with
    | .error e => .error e
    | .ok ch2 =>
      let ch3 : Channel := { ch2 with inBuffer := ch2.inBuffer ++ reply }
      if waitForResponse then response ch3
      else .ok (none, ch3)

/-! ## Sequence compiler (`IlluminateController.preloadSequence`, lines 335-408) -/

/-- One `led_pattern` of a time-point pattern: a dict with an `index`
field and a `value` map.  The value map is an association list from
channel name to non-negative integer intensity. -/
structure LedPattern where
  index : ℕ
  value : List (String × ℕ)
deriving DecidableEq, Repr

/-- `sum(list(values))` over the value map of the entry (source line 382). -/
def LedPattern.valueSum (lp : LedPattern) : ℕ := (lp.value.map Prod.snd).sum

/-- Dictionary lookup of one channel in the value map of an entry,
`none` modelling the `KeyError` a missing channel raises. -/
def lookupChannel (v : List (String × ℕ)) (c : String) : Option ℕ :=
  (v.find? (fun p => p.1 = c)).map Prod.snd

/-- One `time_point_pattern`: the list of LED entries of one frame. -/
abbrev Pattern := List LedPattern

/-- One `frame_sequence` entry of `state_sequence_preload`: a dict with
a `states` list of time-point patterns. -/
structure FrameSequence where
  states : List Pattern
deriving Repr

/-- A device command of the compiled plan.  The source builds these as
strings; `renderCommand` below produces exactly the text sent. -/
inductive SeqCommand where
  | ssl (n : ℕ)
  | ssz (n : ℕ)
  | ssv (ledCount : ℕ) (body : String)
deriving DecidableEq, Repr

/-- The exact command text the source sends for each plan entry:
`ssl.` plus `str(n)`, `ssz.` plus `str(n)` and `ssv.` plus
`str(led_count)` plus the accumulated body (source lines 366, 394,
399, 402). -/
def renderCommand : SeqCommand → String
  | .ssl n => "ssl." ++ toString n
  | .ssz n => "ssz." ++ toString n
  | .ssv k body => "ssv." ++ toString k ++ body

/-- The text appended for one lit LED entry (source lines 383-389):
a dot plus `str(index)` followed, for each configured channel in order,
by a dot plus `str(int(value))` when the bit depth exceeds 1 and by a
dot plus `str(int(value > 0))` otherwise.  A channel absent from the
value dict of the entry is a `KeyError`. -/
def encodeLedPattern (bitDepth : ℕ) (channels : List String) (lp : LedPattern) :
    Except String String :=
  channels.foldlM
    (fun acc ch =>
      match lookupChannel lp.value ch with
      | none => .error ("KeyError: " ++ ch)
      | some v =>
        .ok (acc ++ "." ++ (if 1 < bitDepth then toString v else toString (if 0 < v then 1 else 0))))
    ("." ++ toString lp.index)

/-- The inner loop over `time_point_pattern` (source lines 380-389):
counts the LED entries whose channel intensities are not all zero and
concatenates their encodings in original entry order. -/
def encodeLitLeds (bitDepth : ℕ) (channels : List String) : Pattern → Except String (ℕ × String)
  | [] => .ok (0, "")
  | lp :: rest =>
    if 0 < lp.valueSum then
      match encodeLedPattern bitDepth channels lp with
      | .error e => .error e
      | .ok e =>
        match encodeLitLeds bitDepth channels rest with
        | .error e2 => .error e2
        | .ok (k, s) => .ok (k + 1, e ++ s)
    else encodeLitLeds bitDepth channels rest

/-- Processing of one time-point pattern (source lines 374-408),
threading the `contiguous_zero_count` counter `czc`: a dark pattern
increments the counter (and flushes it as a final `ssz` when it is the
last pattern of the frame sequence); a lit pattern first flushes any
pending zero-run and then emits its `ssv` command. -/
def processPattern (bitDepth : ℕ) (channels : List String) (isLast : Bool) (czc : ℕ)
    (pat : Pattern) : Except String (List SeqCommand × ℕ) :=
  match encodeLitLeds bitDepth channels pat with
  | .error e => .error e
  | .ok (ledCount, body) =>
    if ledCount = 0 then
      if isLast then .ok ([.ssz (czc + 1)], 0)
      else .ok ([], czc + 1)
    else
      .ok ((if 0 < czc then [SeqCommand.ssz czc] else []) ++ [.ssv ledCount body], 0)

/-- The `enumerate` loop over the states of one frame sequence: the
last-pattern test against `len(states) - 1` becomes the condition that
the remaining list is empty. -/
def processStates (bitDepth : ℕ) (channels : List String) :
    ℕ → List Pattern → Except String (List SeqCommand × ℕ)
  | czc, [] => .ok ([], czc)
  | czc, p :: rest =>
    match processPattern bitDepth channels rest.isEmpty czc p with
    | .error e => .error e
    | .ok (cmds, czc1) =>
      match processStates bitDepth channels czc1 rest with
      | .error e => .error e
      | .ok (cmds2, czc2) => .ok (cmds ++ cmds2, czc2)

/-- The outer loop over `state_sequence_preload`, threading the zero-run
counter across frame sequences exactly as the single mutable
`contiguous_zero_count` of the source does. -/
def processFrameSequences (bitDepth : ℕ) (channels : List String) :
    ℕ → List FrameSequence → Except String (List SeqCommand × ℕ)
  | czc, [] => .ok ([], czc)
  | czc, fs :: rest =>
    match processStates bitDepth channels czc fs.states with
    | .error e => .error e
    | .ok (cmds, czc1) =>
      match processFrameSequences bitDepth channels czc1 rest with
      | .error e => .error e
      | .ok (cmds2, czc2) => .ok (cmds ++ cmds2, czc2)

/-- `led_sequence_length` (source lines 360-363): the summed length of
the `states` lists. -/
def totalStates (seqs : List FrameSequence) : ℕ :=
  (seqs.map (fun fs => fs.states.length)).sum

/-- `IlluminateController.preloadSequence` (source lines 360-408),
compiling an already-selected `state_sequence_preload`: declare the
total length with `ssl`, then stream the zero-run-compressed frame
commands. -/
def preloadSequence (bitDepth : ℕ) (channels : List String) (seqs : List FrameSequence) :
    Except String (List SeqCommand) :=
  match processFrameSequences bitDepth channels 0 seqs with
  | .error e => .error e
  | .ok (cmds, _) => .ok (.ssl (totalStates seqs) :: cmds)

/-- LED-state count represented by one plan entry: a zero-run `ssz n`
stands for `n` dark frames, a value-set `ssv` for one frame, the
declared length `ssl` for none. -/
def ledStateCount : SeqCommand → ℕ
  | .ssl _ => 0
  | .ssz n => n
  | .ssv _ _ => 1

/-- Total LED-state count of a plan fragment. -/
def planLedCount (l : List SeqCommand) : ℕ := (l.map ledStateCount).sum

/-- Whether a plan entry is the declare-total-length command. -/
def isSsl : SeqCommand → Bool
  | .ssl _ => true
  | _ => false

/-! ## Sequence runner (`runSequence` / `_runSequence` /
`_runSequenceFast`, source lines 290-333).  Host timestamps are modelled
as exact rationals. -/

/-- `np.diff`: consecutive differences of a list. -/
def diffs : List ℚ → List ℚ
  | a :: b :: rest => (b - a) :: diffs (b :: rest)
  | _ => []

/-- `np.mean`: sum divided by length. -/
def npMean (l : List ℚ) : ℚ := l.sum / (l.length : ℚ)

/-- `np.round`: round half to even, as NumPy does. -/
def npRound (q : ℚ) : ℤ :=
  if q - (⌊q⌋ : ℚ) = 1 / 2 then (if 2 ∣ ⌊q⌋ then ⌊q⌋ else ⌊q⌋ + 1) else ⌊q + 1 / 2⌋

/-- `int(x)` on a float: truncation toward zero. -/
def intTrunc (q : ℚ) : ℤ := if 0 ≤ q then ⌊q⌋ else ⌈q⌉

/-- `self.sequence_dt_ms = np.mean(np.diff(np.append(0, ts))) * 1000.`
(source line 294): the preloaded timestamps are flattened, a leading 0
is prepended, and the mean of the consecutive differences is converted
to milliseconds. -/
def sequence_dt_ms (ts : List ℚ) : ℚ := npMean (diffs (0 :: ts)) * 1000

/-- The four trigger settings read by the run commands:
`trigger_output_settings[0..1]` and `trigger_input_settings[0..1]`. -/
structure TriggerState where
  out0 : ℕ
  out1 : ℕ
  in0 : ℕ
  in1 : ℕ
deriving DecidableEq, Repr

/-- The run command sent to the device, with the fields in the order the
source concatenates them into the command text. -/
inductive RunCmd where
  | rseq (intervalMs : ℤ) (iterations : ℕ) (out0 out1 in0 in1 : ℕ) (exp0 exp1 : ℚ)
  | rseqf (intervalUs : ℤ) (frameDt : ℤ) (iterations : ℕ) (out0 out1 in0 in1 : ℕ)
deriving DecidableEq, Repr

/-- A run command together with the `wait_for_response` flag it is sent
with through `IlluminateController.command`. -/
structure RunCall where
  cmd : RunCmd
  waitForResponse : Bool
deriving DecidableEq, Repr

/-- `IlluminateController._runSequence` (source lines 300-316): when
either trigger-input setting is positive the configured
`min_sequence_dt_ms` replaces the computed interval; the `rseq` command
carries the rounded interval, the iteration count, both trigger-output
settings, both trigger-input settings and both `trigger_frame_time_s`
exposure durations, and is sent with `wait_for_response=False`. -/
def runSequenceNormal (dtMs minDtMs : ℚ) (trig : TriggerState) (exp0 exp1 : ℚ)
    (nAcquisitions : ℕ) : RunCall :=
  let dtUsed := if 0 < trig.in0 + trig.in1 then minDtMs else dtMs
  ⟨.rseq (npRound dtUsed) nAcquisitions trig.out0 trig.out1 trig.in0 trig.in1 exp0 exp1, false⟩

/-- `IlluminateController._runSequenceFast` (source lines 318-333):
interval converted to microseconds and truncated, frame dt the larger
exposure duration truncated; sent with `wait_for_response=False`. -/
def runSequenceFast (dtMs : ℚ) (trig : TriggerState) (exp0 exp1 : ℚ)
    (nAcquisitions : ℕ) : RunCall :=
  ⟨.rseqf (intTrunc (dtMs * 1000)) (intTrunc (max exp0 exp1)) nAcquisitions
      trig.out0 trig.out1 trig.in0 trig.in1, false⟩

/-- `IlluminateController.runSequence` (source lines 290-298): compute
`sequence_dt_ms` from the preloaded timestamps, then dispatch on
`use_fast_sequence`. -/
def runSequence (ts : List ℚ) (useFast : Bool) (minDtMs : ℚ) (trig : TriggerState)
    (exp0 exp1 : ℚ) (nAcquisitions : ℕ) : RunCall :=
  let dt := sequence_dt_ms ts
  if useFast then runSequenceFast dt trig exp0 exp1 nAcquisitions
  else runSequenceNormal dt minDtMs trig exp0 exp1 nAcquisitions

/-! ## Capability fetch (`getLedArrayParametersDict` /
`getLedArrayParameters`, source lines 158-185). -/

/-- The fields `getLedArrayParameters` extracts from the parsed
capability payload. -/
structure DeviceParams where
  trigger_output_count : ℕ
  trigger_input_count : ℕ
  bit_depth : ℕ
  device_name : String
  led_count : ℕ
  color_channels : List String
  color_channel_center_wavelengths : List (String × ℕ)
deriving Repr

/-- The capability fields cached on the controller, each absent until a
successful fetch assigns it (source lines 33-40 initialise them to
`None`). -/
structure CapabilityState where
  trigger_output_settings : Option (List ℕ)
  trigger_input_settings : Option (List ℕ)
  bit_depth : Option ℕ
  device_name : Option String
  led_count : Option ℕ
  color_channels : Option (List String)
  color_channel_center_wavelengths : Option (List (String × ℕ))
deriving Repr

/-- The serial-stream filter of `getLedArrayParametersDict` (source line
163): replace literal backslash-n with a space, drop literal
backslash-r, drop the terminator text, collapse five-space runs, turn
single quotes into double quotes, and drop the final character. -/
def filterParams (raw : String) : String :=
  (((((raw.replace "\\n" " ").replace "\\r" "").replace "-==-" "").replace "     " " ").replace
      "\x27" "\x22").dropRight 1

/-- `getLedArrayParametersDict` (source lines 158-173): filter the raw
payload and parse it; a parse failure is caught and yields `None`.
`parse` stands for `json.loads` plus the per-field extraction — library
code, passed in abstractly. -/
def getLedArrayParametersDict (parse : String → Option DeviceParams) (raw : String) :
    Option DeviceParams :=
  parse (filterParams raw)

/-- `getLedArrayParameters` (source lines 175-185): assign every cached
capability field from the parsed dict, or — when the dict is `None` —
assign nothing at all. -/
def getLedArrayParameters (parse : String → Option DeviceParams) (raw : String)
    (st : CapabilityState) : CapabilityState :=
  match getLedArrayParametersDict parse raw with
  | none => st
  | some d =>
    { trigger_output_settings := some (List.replicate d.trigger_output_count 0)
      trigger_input_settings := some (List.replicate d.trigger_input_count 0)
      bit_depth := some d.bit_depth
      device_name := some d.device_name
      led_count := some d.led_count
      color_channels := some d.color_channels
      color_channel_center_wavelengths := some d.color_channel_center_wavelengths }

/-! ## `setSequenceBitDepth` (source lines 265-271). -/

/-- `IlluminateController.setSequenceBitDepth`: a depth outside
`allowed_bit_depths = [1, 8]` raises `ValueError` before anything is
recorded or sent; an allowed depth records
`illumination_sequence_bit_depth` and sends `ssbd.<depth>`. -/
def setSequenceBitDepth (bitDepth : ℕ) : Except String (ℕ × String) :=
  if bitDepth ∈ [1, 8] then .ok (bitDepth, "ssbd." ++ toString bitDepth)
  else .error ("Invalid bit depth (" ++ toString bitDepth ++ ")")

/-- Modelled from the spec: the interval the spec describes for Normal
mode, the mean of consecutive inter-frame timestamp deltas of the
preloaded time sequence itself (no leading 0 prepended), converted to
milliseconds.  Stated only to compare against `sequence_dt_ms`, which
is the translation of the source. -/
def specMeanDeltaMs (ts : List ℚ) : ℚ := npMean (diffs ts) * 1000

/-! ## Helper lemmas -/

/-- Plan LED-state counts add over concatenation. -/
theorem planLedCount_append (a b : List SeqCommand) :
    planLedCount (a ++ b) = planLedCount a + planLedCount b := by
  simp [planLedCount]

/-- One pattern contributes exactly one LED state: the commands it emits
plus the zero-run counter it leaves behind account for the incoming
counter plus this one frame, and it never emits an `ssl`. -/
theorem processPattern_count {bd : ℕ} {chs : List String} {isLast : Bool} {czc : ℕ}
    {pat : Pattern} {cmds : List SeqCommand} {czc' : ℕ}
    (h : processPattern bd chs isLast czc pat = .ok (cmds, czc')) :
    planLedCount cmds + czc' = czc + 1 ∧ ∀ c ∈ cmds, isSsl c = false := by
  unfold processPattern at h
  split at h
  · exact Except.noConfusion h
  · split at h
    · split at h
      · injection h with h
        injection h with h1 h2
        subst h1; subst h2
        refine ⟨by simp [planLedCount, ledStateCount], ?_⟩
        intro c hc
        simp at hc
        subst hc
        rfl
      · injection h with h
        injection h with h1 h2
        subst h1; subst h2
        refine ⟨by simp [planLedCount], ?_⟩
        intro c hc
        simp at hc
    · injection h with h
      injection h with h1 h2
      subst h1; subst h2
      constructor
      · by_cases hz : 0 < czc
        · simp [hz, planLedCount, ledStateCount]
        · simp [hz, planLedCount, ledStateCount]
          omega
      · intro c hc
        by_cases hz : 0 < czc
        · simp [hz] at hc
          rcases hc with hc | hc <;> subst hc <;> rfl
        · simp [hz] at hc
          subst hc
          rfl

/-- The last pattern of a frame sequence always leaves the zero-run
counter at zero: a trailing dark run is flushed, a lit pattern resets. -/
theorem processPattern_last_czc {bd : ℕ} {chs : List String} {czc : ℕ}
    {pat : Pattern} {cmds : List SeqCommand} {czc' : ℕ}
    (h : processPattern bd chs true czc pat = .ok (cmds, czc')) : czc' = 0 := by
  unfold processPattern at h
  split at h
  · exact Except.noConfusion h
  · split at h
    · split at h
      · injection h with h
        injection h with h1 h2
        exact h2.symm
      · simp at *
    · injection h with h
      injection h with h1 h2
      exact h2.symm

/-- Invariant of the per-frame-sequence loop: emitted LED-state count
plus the outgoing zero-run counter equals the incoming counter plus the
number of patterns; no `ssl` is emitted; and the outgoing counter is
zero unless the state list was empty. -/
theorem processStates_spec (bd : ℕ) (chs : List String) (states : List Pattern) :
    ∀ (czc : ℕ) (cmds : List SeqCommand) (czc' : ℕ),
    processStates bd chs czc states = .ok (cmds, czc') →
    planLedCount cmds + czc' = czc + states.length ∧ (∀ c ∈ cmds, isSsl c = false) ∧
      (czc' = 0 ∨ (states = [] ∧ czc' = czc)) := by
  induction states with
  | nil =>
    intro czc cmds czc' h
    unfold processStates at h
    injection h with h
    injection h with h1 h2
    subst h1; subst h2
    exact ⟨by simp [planLedCount], by intro c hc; simp at hc, Or.inr ⟨rfl, rfl⟩⟩
  | cons p rest ih =>
    intro czc cmds czc' h
    unfold processStates at h
    split at h
    · exact Except.noConfusion h
    · rename_i pr cmds1 czc1 hP
      split at h
      · exact Except.noConfusion h
      · rename_i pr2 cmds2 czc2 hS
        injection h with h
        injection h with h1 h2
        subst h1; subst h2
        obtain ⟨hc1, hno1⟩ := processPattern_count hP
        obtain ⟨hc2, hno2, hz2⟩ := ih czc1 cmds2 czc2 hS
        refine ⟨?_, ?_, ?_⟩
        · rw [planLedCount_append]
          simp only [List.length_cons]
          omega
        · intro c hc
          rcases List.mem_append.mp hc with hc | hc
          · exact hno1 c hc
          · exact hno2 c hc
        · rcases hz2 with hz2 | ⟨hrest, hz2⟩
          · exact Or.inl hz2
          · subst hrest
            left
            rw [hz2]
            exact processPattern_last_czc hP

/-- Invariant of the outer loop over frame sequences: same count
accounting against `totalStates`, no `ssl`, and a zero incoming counter
stays zero at the end. -/
theorem processFrameSequences_spec (bd : ℕ) (chs : List String) (seqs : List FrameSequence) :
    ∀ (czc : ℕ) (cmds : List SeqCommand) (czc' : ℕ),
    processFrameSequences bd chs czc seqs = .ok (cmds, czc') →
    planLedCount cmds + czc' = czc + totalStates seqs ∧ (∀ c ∈ cmds, isSsl c = false) ∧
      (czc = 0 → czc' = 0) := by
  induction seqs with
  | nil =>
    intro czc cmds czc' h
    unfold processFrameSequences at h
    injection h with h
    injection h with h1 h2
    subst h1; subst h2
    exact ⟨by simp [planLedCount, totalStates], by intro c hc; simp at hc, fun hz => hz⟩
  | cons fs rest ih =>
    intro czc cmds czc' h
    unfold processFrameSequences at h
    split at h
    · exact Except.noConfusion h
    · rename_i pr cmds1 czc1 hS
      split at h
      · exact Except.noConfusion h
      · rename_i pr2 cmds2 czc2 hR
        injection h with h
        injection h with h1 h2
        subst h1; subst h2
        obtain ⟨hc1, hno1, hz1⟩ := processStates_spec bd chs fs.states czc cmds1 czc1 hS
        obtain ⟨hc2, hno2, hz2⟩ := ih czc1 cmds2 czc2 hR
        refine ⟨?_, ?_, ?_⟩
        · rw [planLedCount_append]
          simp only [totalStates, List.map_cons, List.sum_cons] at hc2 ⊢
          omega
        · intro c hc
          rcases List.mem_append.mp hc with hc | hc
          · exact hno1 c hc
          · exact hno2 c hc
        · intro hz
          subst hz
          rcases hz1 with hz1 | ⟨_, hz1⟩ <;> exact hz2 (by omega)

/-- Telescoping: the consecutive differences of a list starting at `a`
sum to its last element minus `a`. -/
theorem diffs_sum (l : List ℚ) : ∀ a : ℚ, (diffs (a :: l)).sum = l.getLastD a - a := by
  induction l with
  | nil => intro a; simp [diffs]
  | cons b m ih =>
    intro a
    rw [diffs]
    rw [List.sum_cons, ih b, List.getLastD_cons]
    ring

/-- A list with a prepended head has as many differences as the tail has
elements. -/
theorem diffs_length (l : List ℚ) : ∀ a : ℚ, (diffs (a :: l)).length = l.length := by
  induction l with
  | nil => intro a; simp [diffs]
  | cons b m ih =>
    intro a
    rw [diffs]
    simp [ih b]

/-- Closed form of the interval computed on source line 294: because a
leading timestamp 0 is prepended before differencing, the mean delta is
the final timestamp divided by the frame count, in milliseconds. -/
theorem sequence_dt_ms_eq (ts : List ℚ) :
    sequence_dt_ms ts = ts.getLastD 0 / (ts.length : ℚ) * 1000 := by
  unfold sequence_dt_ms npMean
  rw [diffs_sum, diffs_length, sub_zero]

/-! ## Claim theorems -/

/-- Claim C1: compiling the frame list dark, dark, one frame lighting
LED 0 with red intensity 5, dark — with bit depth 8 and channel list
containing only red — emits exactly the commands `ssl.4`, `ssz.2`,
`ssv.1.0.5`, `ssz.1`, in that order: the declared total first, a
zero-run of 2 for the two leading dark frames, the value-set for the
single lit LED, and a trailing zero-run of 1 for the final dark
frame. -/
theorem claim1_scenario_commands :
    (preloadSequence 8 ["r"] [⟨[[], [], [⟨0, [("r", 5)]⟩], []]⟩]).map
        (List.map renderCommand) =
      .ok ["ssl.4", "ssz.2", "ssv.1.0.5", "ssz.1"] := rfl

/-- Claim C2: whenever compilation succeeds, the plan starts with the
declare-total-length command `ssl.n` where `n` is the total frame-state
count of the input, no later entry is an `ssl`, and the sum of the
zero-run counts plus the number of value-set entries of the remainder
equals that declared total — the zero-run compression drops and
duplicates no frame. -/
theorem claim2_declared_total_invariant (bd : ℕ) (chs : List String)
    (seqs : List FrameSequence) (plan : List SeqCommand)
    (h : preloadSequence bd chs seqs = .ok plan) :
    ∃ rest, plan = SeqCommand.ssl (totalStates seqs) :: rest ∧
      (∀ c ∈ rest, isSsl c = false) ∧ planLedCount rest = totalStates seqs := by
  unfold preloadSequence at h
  split at h
  · exact Except.noConfusion h
  · rename_i pr cmds czcF hF
    injection h with h
    subst h
    obtain ⟨hc, hno, hz⟩ := processFrameSequences_spec bd chs seqs 0 cmds czcF hF
    refine ⟨cmds, rfl, hno, ?_⟩
    have := hz rfl
    omega

/-- Witness for C2: the invariant instantiated on the concrete C1-style
input, whose compilation succeeds by computation. -/
theorem claim2_declared_total_invariant_witness :
    ∃ rest, ([SeqCommand.ssl 4, .ssz 2, .ssv 1 ".0.5", .ssz 1] : List SeqCommand) =
        SeqCommand.ssl (totalStates [⟨[[], [], [⟨0, [("r", 5)]⟩], []]⟩]) :: rest ∧
      (∀ c ∈ rest, isSsl c = false) ∧
      planLedCount rest = totalStates [⟨[[], [], [⟨0, [("r", 5)]⟩], []]⟩] :=
  claim2_declared_total_invariant 8 ["r"] [⟨[[], [], [⟨0, [("r", 5)]⟩], []]⟩] _ rfl

/-- Claim C3 (code evaluated at the failing input): on the raw device
response `ACK-==-` plus newline, `response` returns the payload with
the protocol terminator still attached — the stripping on source line
110 discards its result — contradicting the documented classification
of a terminator-stripped payload. -/
theorem claim3_terminator_kept :
    response ⟨true, "ACK-==-\n", []⟩ = .ok (some "ACK-==-\n", ⟨true, "", []⟩) := rfl

/-- Counterexample for C4: the response text `ERROR: invalid index`
plus terminator classifies as a device error carrying the split list
with an empty first segment and the text `: invalid index` plus the
un-stripped terminator — not the bare message `invalid index` the claim
names. -/
theorem claim4_counterexample :
    response ⟨true, "ERROR: invalid index-==-\n", []⟩ =
      .error (.deviceError ["", ": invalid index-==-\n"]) ∧
    SessionError.deviceError ["", ": invalid index-==-\n"] ≠
      SessionError.deviceError ["invalid index"] :=
  ⟨rfl, by simp⟩

/-- Claim C4 (amended): every read response containing the marker
`ERROR` classifies as a device error — never as Ok — carrying the list
of marker-delimited segments of the raw (un-stripped) response text. -/
theorem claim4_deviceError_never_ok (ch : Channel) (hOpen : ch.isOpen = true)
    (hErr : containsERROR (rawRead ch).toList = true) :
    response ch = .error (.deviceError ((splitOnERROR (rawRead ch).toList).map String.mk)) ∧
    ∀ p res, response ch ≠ .ok (some p, res) := by
  simp only [String.toList] at hErr
  refine ⟨?_, ?_⟩
  · simp [response, hOpen, hErr]
  · intro p res
    simp [response, hOpen, hErr]

/-- Witness for C4: the amended classification applied to the concrete
invalid-index response. -/
theorem claim4_deviceError_never_ok_witness :
    response ⟨true, "ERROR: invalid index-==-\n", []⟩ =
      .error (.deviceError ((splitOnERROR
          (rawRead ⟨true, "ERROR: invalid index-==-\n", []⟩).toList).map String.mk)) ∧
    ∀ p res, response ⟨true, "ERROR: invalid index-==-\n", []⟩ ≠ .ok (some p, res) :=
  claim4_deviceError_never_ok _ rfl rfl

/-- Claim C5 (code evaluated at the failing input): on the empty byte
stream the read never returns — the source configures no serial read
timeout, so `read_until` blocks indefinitely — and the session layer
defines no Timeout error at all (its only errors are the not-open
ValueError and the device-error ValueError), so `sendCommand` there
neither fails with a Timeout error nor returns any classification. -/
theorem claim5_read_blocks_no_timeout :
    readUntilReturns "".toList = false ∧
    ∀ e : SessionError,
      e = SessionError.notOpen ∨ ∃ parts, e = SessionError.deviceError parts := by
  refine ⟨rfl, ?_⟩
  intro e
  cases e with
  | notOpen => exact Or.inl rfl
  | deviceError parts => exact Or.inr ⟨parts, rfl⟩

/-- Counterexample for C6: at a concrete Normal-mode invocation the
emitted command is an `rseq`, yet the call is made with
`wait_for_response=False` — the response is not awaited, contrary to
the claim. -/
theorem claim6_counterexample :
    (∃ i, (runSequence [1] false 10 ⟨0, 0, 0, 0⟩ 0 0 1).cmd = .rseq i 1 0 0 0 0 0 0) ∧
    (runSequence [1] false 10 ⟨0, 0, 0, 0⟩ 0 0 1).waitForResponse ≠ true :=
  ⟨⟨_, rfl⟩, by decide⟩

/-- Claim C6 (amended): Normal mode emits the `rseq` command carrying
the iteration count, trigger settings and exposure durations, but sends
it with `wait_for_response=False` — fire-and-forget, exactly like
FastMaxRate mode. -/
theorem claim6_normal_mode_no_wait (ts : List ℚ) (minDtMs : ℚ) (trig : TriggerState)
    (exp0 exp1 : ℚ) (n : ℕ) :
    (∃ i, (runSequence ts false minDtMs trig exp0 exp1 n).cmd =
        .rseq i n trig.out0 trig.out1 trig.in0 trig.in1 exp0 exp1) ∧
    (runSequence ts false minDtMs trig exp0 exp1 n).waitForResponse = false ∧
    (runSequence ts true minDtMs trig exp0 exp1 n).waitForResponse = false :=
  ⟨⟨_, rfl⟩, rfl, rfl⟩

/-- Counterexample for C7: for the preloaded timestamps 10 s and 11 s
the source computes 5500 ms (the mean is taken after prepending a
timestamp 0), while the mean of the consecutive deltas of the time
sequence itself is 1000 ms; the two disagree, and that interval is what
the emitted `rseq` carries. -/
theorem claim7_counterexample :
    (runSequence [10, 11] false 999 ⟨0, 0, 0, 0⟩ 0 0 2).cmd =
      .rseq (npRound (sequence_dt_ms [10, 11])) 2 0 0 0 0 0 0 ∧
    sequence_dt_ms [10, 11] = 5500 ∧ specMeanDeltaMs [10, 11] = 1000 ∧
    npRound (5500 : ℚ) = 5500 ∧ npRound (1000 : ℚ) = 1000 ∧ (5500 : ℤ) ≠ 1000 := by
  refine ⟨rfl, ?_, ?_, ?_, ?_, by decide⟩
  · simp [sequence_dt_ms, npMean, diffs]
    norm_num
  · simp [specMeanDeltaMs, npMean, diffs]
    norm_num
  · simp [npRound]
    norm_num [Int.floor_eq_iff]
  · simp [npRound]
    norm_num [Int.floor_eq_iff]

/-- Claim C7 (amended): in Normal mode the `rseq` interval is the
rounded mean of the deltas of the zero-prepended preloaded time
sequence — equivalently the final timestamp divided by the frame count,
in milliseconds — except that the configured minimum interval is used
whenever either trigger-input setting is active; the command carries
the iteration count, both trigger-output configs, both trigger-input
configs and both trigger-input frame-exposure durations. -/
theorem claim7_interval_and_fields (ts : List ℚ) (minDtMs : ℚ) (trig : TriggerState)
    (exp0 exp1 : ℚ) (n : ℕ) (_hts : ts ≠ []) :
    runSequence ts false minDtMs trig exp0 exp1 n =
      ⟨.rseq (npRound (if 0 < trig.in0 + trig.in1 then minDtMs
          else ts.getLastD 0 / (ts.length : ℚ) * 1000)) n
        trig.out0 trig.out1 trig.in0 trig.in1 exp0 exp1, false⟩ := by
  simp only [runSequence, runSequenceNormal, sequence_dt_ms_eq, Bool.false_eq_true, if_false]

/-- Witness for C7: the interval law instantiated on timestamps 10 s
and 11 s with an active trigger input, so the minimum interval is
selected. -/
theorem claim7_interval_and_fields_witness :
    runSequence [10, 11] false 7 ⟨0, 0, 1, 0⟩ 4 5 3 =
      ⟨.rseq (npRound (if 0 < (⟨0, 0, 1, 0⟩ : TriggerState).in0 +
            (⟨0, 0, 1, 0⟩ : TriggerState).in1 then (7 : ℚ)
          else ([10, 11] : List ℚ).getLastD 0 /
            ((([10, 11] : List ℚ).length : ℕ) : ℚ) * 1000)) 3
        0 0 1 0 4 5, false⟩ :=
  claim7_interval_and_fields [10, 11] 7 ⟨0, 0, 1, 0⟩ 4 5 3 (List.cons_ne_nil _ _)

/-- Claim C8: when the filtered capability payload fails to parse, the
fetch assigns nothing — every cached capability field keeps its prior
value, with no partial update. -/
theorem claim8_parse_failure_preserves_state (parse : String → Option DeviceParams)
    (raw : String) (st : CapabilityState)
    (hFail : parse (filterParams raw) = none) :
    getLedArrayParameters parse raw st = st := by
  simp [getLedArrayParameters, getLedArrayParametersDict, hFail]

/-- Witness for C8: a parser that always fails leaves the all-absent
capability state untouched. -/
theorem claim8_parse_failure_preserves_state_witness :
    getLedArrayParameters (fun _ => none) "" ⟨none, none, none, none, none, none, none⟩ =
      ⟨none, none, none, none, none, none, none⟩ :=
  claim8_parse_failure_preserves_state (fun _ => none) ""
    ⟨none, none, none, none, none, none, none⟩ rfl

/-- Claim C9: sending any command with `wait_for_response=False` on an
open channel returns None to the caller; the flush (stale input
discarded) and the terminated write still happen, and no read is
performed — the device reply stays fully buffered. -/
theorem claim9_no_wait_returns_none (ch : Channel) (cmd reply : String)
    (hOpen : ch.isOpen = true) :
    command ch cmd reply false =
      .ok (none, ⟨true, reply, ch.written ++ [cmd ++ command_terminator]⟩) := by
  simp [command, flush, writeCommand, hOpen]

/-- Witness for C9: a concrete open channel with stale input and a
pending device reply. -/
theorem claim9_no_wait_returns_none_witness :
    command ⟨true, "stale", []⟩ "ver" "reply" false =
      .ok (none, ⟨true, "reply", ["ver\n"]⟩) :=
  claim9_no_wait_returns_none ⟨true, "stale", []⟩ "ver" "reply" rfl

/-- Claim C10: a bit depth other than 1 or 8 raises the invalid-depth
error — nothing is recorded and no command is sent — while 1 or 8
records the depth and sends exactly `ssbd.` followed by the depth. -/
theorem claim10_bit_depth_validation (bd : ℕ) :
    (bd ≠ 1 ∧ bd ≠ 8 →
      setSequenceBitDepth bd = .error ("Invalid bit depth (" ++ toString bd ++ ")")) ∧
    (bd = 1 ∨ bd = 8 → setSequenceBitDepth bd = .ok (bd, "ssbd." ++ toString bd)) := by
  constructor
  · intro hb
    simp [setSequenceBitDepth, hb.1, hb.2]
  · rintro (rfl | rfl) <;> rfl

/-- Witness for C10: depth 4 is rejected with the error text, depth 8
is recorded and sent. -/
theorem claim10_bit_depth_validation_witness :
    setSequenceBitDepth 4 = .error ("Invalid bit depth (" ++ toString 4 ++ ")") ∧
    setSequenceBitDepth 8 = .ok (8, "ssbd." ++ toString 8) :=
  ⟨(claim10_bit_depth_validation 4).1 ⟨by decide, by decide⟩,
    (claim10_bit_depth_validation 8).2 (Or.inr rfl)⟩

end Illuminate
